import Mathlib

/-!
# Quest Orchestration Engine — verification development

Shallow embedding of the quest orchestration logic of the XMTP Social
Quest Arena backend, together with theorems settling the specification
claims about it.

The embedding follows the source files:
* `backend/src/services/QuestOrchestrator.ts` (second class definition in
  the file: `joinQuest`, `completeQuest`, `updateUserProfile`,
  `calculateSocialScoreIncrease`, `cleanupExpiredQuests`,
  `setupQuestMasterListeners`; first class definition: `shouldCreateQuest`),
* `backend/src/agents/QuestMaster` (OpenAI variant: `analyzeAndCreateQuest`,
  `completeQuest`),
* `backend/src/services/MiniAppLauncher.ts` (second class definition:
  `addParticipant`, `removeParticipant`).

JavaScript `Map`s (which always hold pairwise-distinct keys in the
program) are embedded as association lists with first-occurrence lookup
and in-place update; `Date` values are embedded as natural numbers of
milliseconds; emitted events are returned as values.  The single event
listener wired by `setupQuestMasterListeners` runs synchronously inside
`emit`, so it is inlined at the emission point.
-/

namespace QuestArena

/-- Quest type union from `types/Quest` (closed enumeration). -/
inductive QuestType
  | social_challenge
  | knowledge_quest
  | creative_contest
  | community_building
  | cross_protocol
deriving DecidableEq, Repr

/-- Quest difficulty union from `types/Quest`. -/
inductive Difficulty
  | easy
  | medium
  | hard
  | expert
deriving DecidableEq, Repr

/-- Quest lifecycle status union from `types/Quest`. -/
inductive QuestStatus
  | active
  | completed
  | expired
deriving DecidableEq, Repr

/-- `participantLimits` record of a quest. -/
structure ParticipantLimits where
  min : Nat
  max : Nat
deriving DecidableEq, Repr

/-- `rewards` record of a quest (xp, optional tokens). -/
structure Rewards where
  xp : Nat
  tokens : Option Nat
deriving DecidableEq, Repr

/-- The `Quest` entity from `types/Quest` (fields of string / config-only
content that no operation branches on are omitted: title, description,
requirements, miniAppConfig). -/
structure Quest where
  id : String
  type : QuestType
  difficulty : Difficulty
  duration : Nat
  participantLimits : ParticipantLimits
  rewards : Rewards
  conversationId : String
  createdAt : Nat
  expiresAt : Nat
  status : QuestStatus
  participants : List String
deriving DecidableEq, Repr

/-- The `UserProfile` entity from `types/Quest`. -/
structure UserProfile where
  inboxId : String
  level : Nat
  xp : Nat
  preferences : List QuestType
  completedQuests : List String
  socialScore : Nat
  lastActive : Nat
deriving DecidableEq, Repr

/-- The `QuestCompletion` record from `types/Quest` (the opaque `result`
payload is omitted — nothing branches on it). -/
structure QuestCompletion where
  questId : String
  participantInboxId : String
  completedAt : Nat
  rewards : Rewards
  newLevel : Nat
deriving DecidableEq, Repr

/-- Error taxonomy of the engine (the source throws `Error` values with
these messages; the spec names them as kinds). -/
inductive QuestError
  | QuestNotFound
  | QuestNotActive
  | QuestFull
  | NotAParticipant
  | InvalidQuestDefinition
  | CompletionNotRecorded
deriving DecidableEq, Repr

/-! ## Association-list embedding of JavaScript `Map` -/

/-- `Map.get`: value of the first entry with the given key. -/
def mapGet {α : Type} : List (String × α) → String → Option α
  | [], _ => none
  | e :: rest, k => if e.1 = k then some e.2 else mapGet rest k

/-- `Map.set`: replace the first entry with the given key in place
(key sets are pairwise distinct in the program, so first = only),
or append a fresh entry. -/
def mapSet {α : Type} : List (String × α) → String → α → List (String × α)
  | [], k, v => [(k, v)]
  | e :: rest, k, v => if e.1 = k then (k, v) :: rest else e :: mapSet rest k v

/-- `Map.delete`: drop the entries with the given key. -/
def mapDelete {α : Type} (m : List (String × α)) (k : String) : List (String × α) :=
  m.filter (fun e => decide (e.1 ≠ k))

/-! ## QuestMaster (OpenAI variant) -/

/-- Fresh profile created by `getUserProfile` when the inbox id is unseen
(level 1, xp 0, empty histories; `lastActive = new Date()`). -/
def freshProfile (inboxId : String) (now : Nat) : UserProfile :=
  { inboxId := inboxId, level := 1, xp := 0, preferences := [],
    completedQuests := [], socialScore := 0, lastActive := now }

namespace QuestMaster

/-- Mutable state of one `QuestMaster` instance: its `activeQuests` and
`userProfiles` maps. -/
structure State where
  activeQuests : List (String × Quest)
  userProfiles : List (String × UserProfile)
deriving DecidableEq, Repr

/-- `QuestMaster.getUserProfile`: look the profile up, creating a fresh one
on first interaction. -/
def getUserProfile (s : State) (inboxId : String) (now : Nat) : State × UserProfile :=
  match mapGet s.userProfiles inboxId with
  | some p => (s, p)
  | none =>
    let p := freshProfile inboxId now
    ({ s with userProfiles := mapSet s.userProfiles inboxId p }, p)

/-- `QuestMaster.completeQuest` (OpenAI variant): throws `Quest not found`
when the quest id is absent from the master's map; otherwise — with no
status check and no participant check — adds the XP reward, recomputes the
level, appends the quest id to the profile's history, marks the quest
`completed` (while leaving it in the map), and emits the completion. -/
def completeQuest (s : State) (questId participantInboxId : String) (now : Nat) :
    Except QuestError (State × QuestCompletion) :=
  match mapGet s.activeQuests questId with
  | none => .error .QuestNotFound
  | some quest =>
    let gp := getUserProfile s participantInboxId now
    let s₁ := gp.1
    let userProfile := gp.2
    let newXP := userProfile.xp + quest.rewards.xp
    let newLevel := newXP / 100 + 1
    let completion : QuestCompletion :=
      { questId := questId, participantInboxId := participantInboxId,
        completedAt := now, rewards := quest.rewards, newLevel := newLevel }
    let userProfile' :=
      { userProfile with
        xp := newXP, level := newLevel,
        completedQuests := userProfile.completedQuests ++ [questId],
        lastActive := now }
    let quest' := { quest with status := QuestStatus.completed }
    .ok ({ activeQuests := mapSet s₁.activeQuests questId quest',
           userProfiles := mapSet s₁.userProfiles participantInboxId userProfile' },
         completion)

/-- The proposal data parsed from the model response in
`analyzeAndCreateQuest`; every field is optional (`questData.x || default`).
Truthiness of the numeric `duration` is modelled below. -/
structure Proposal where
  type : Option QuestType
  difficulty : Option Difficulty
  duration : Option Nat
  participantLimits : Option ParticipantLimits
  rewards : Option Rewards
deriving DecidableEq, Repr

/-- JavaScript `x || d` on an optional number: `0` is falsy, so it also
falls back to the default. -/
def orDefaultNat (x : Option Nat) (d : Nat) : Nat :=
  match x with
  | none => d
  | some n => if n = 0 then d else n

/-- Core of `QuestMaster.analyzeAndCreateQuest` after the model response is
parsed: build the quest record (defaults for missing fields, status
`active`, empty participants, `expiresAt = now + duration minutes`),
register it in the master's map, and emit `questCreated`.  There is no
validation of the proposal: the construction is total. -/
def analyzeAndCreateQuest (s : State) (questData : Proposal)
    (personalityFirstType : QuestType) (groupMembersCount : Nat)
    (conversationId newId : String) (now : Nat) : State × Quest :=
  let quest : Quest :=
    { id := newId,
      type := questData.type.getD personalityFirstType,
      difficulty := questData.difficulty.getD Difficulty.medium,
      duration := orDefaultNat questData.duration 30,
      participantLimits :=
        questData.participantLimits.getD ⟨2, Nat.max 2 groupMembersCount⟩,
      rewards := questData.rewards.getD ⟨100, some 10⟩,
      conversationId := conversationId,
      createdAt := now,
      expiresAt := now + orDefaultNat questData.duration 30 * 60 * 1000,
      status := QuestStatus.active,
      participants := [] }
  ({ s with activeQuests := mapSet s.activeQuests newId quest }, quest)

end QuestMaster

/-! ## QuestOrchestrator (second class definition in the file) -/

namespace QuestOrchestrator

/-- Mutable state of the `QuestOrchestrator`: `activeQuests`,
`userProfiles` and `questHistory`. -/
structure State where
  activeQuests : List (String × Quest)
  userProfiles : List (String × UserProfile)
  questHistory : List QuestCompletion
deriving DecidableEq, Repr

/-- `QuestOrchestrator.joinQuest`: `QuestNotFound` when the id is absent,
`QuestNotActive` when the status is not `active`, `false` (not an error)
when the user already participates, `QuestFull` at capacity, otherwise
append the user and return `true`.  (The call to
`questMaster.updateUserPreferences` touches only the master's profile
preferences and is not modelled.) -/
def joinQuest (s : State) (questId userInboxId : String) :
    Except QuestError (State × Bool) :=
  match mapGet s.activeQuests questId with
  | none => .error .QuestNotFound
  | some quest =>
    if quest.status ≠ QuestStatus.active then .error .QuestNotActive
    else if userInboxId ∈ quest.participants then .ok (s, false)
    else if quest.participantLimits.max ≤ quest.participants.length then .error .QuestFull
    else
      let quest' := { quest with participants := quest.participants ++ [userInboxId] }
      .ok ({ s with activeQuests := mapSet s.activeQuests questId quest' }, true)

/-- `QuestOrchestrator.getUserStats`: look the profile up, inserting a fresh
one when absent. -/
def getUserStats (s : State) (inboxId : String) (now : Nat) : State × UserProfile :=
  match mapGet s.userProfiles inboxId with
  | some p => (s, p)
  | none =>
    let p := freshProfile inboxId now
    ({ s with userProfiles := mapSet s.userProfiles inboxId p }, p)

/-- Type bonus table of `calculateSocialScoreIncrease` (the `switch` on
`quest.type`). -/
def typeBonus : QuestType → Nat
  | .community_building => 10
  | .social_challenge => 8
  | .knowledge_quest => 6
  | .creative_contest => 7
  | .cross_protocol => 9

/-- Difficulty bonus table of `calculateSocialScoreIncrease` (the `switch`
on `quest.difficulty`). -/
def difficultyBonus : Difficulty → Nat
  | .expert => 15
  | .hard => 10
  | .medium => 5
  | .easy => 2

/-- `QuestOrchestrator.calculateSocialScoreIncrease`: looks the completed
quest up in `activeQuests`; when the lookup misses it returns the default
increase 5, otherwise 5 plus the type and difficulty bonuses. -/
def calculateSocialScoreIncrease (activeQuests : List (String × Quest))
    (completion : QuestCompletion) : Nat :=
  match mapGet activeQuests completion.questId with
  | none => 5
  | some quest => 5 + typeBonus quest.type + difficultyBonus quest.difficulty

/-- `QuestOrchestrator.updateUserProfile`: add the completion's XP reward,
recompute `level = floor(xp / 100) + 1`, add the quest id to
`completedQuests` when new, and add the social-score increase. -/
def updateUserProfile (s : State) (completion : QuestCompletion) (now : Nat) : State :=
  let gs := getUserStats s completion.participantInboxId now
  let s₁ := gs.1
  let profile := gs.2
  let newXp := profile.xp + completion.rewards.xp
  let newLevel := newXp / 100 + 1
  let newCompleted :=
    if completion.questId ∈ profile.completedQuests then profile.completedQuests
    else profile.completedQuests ++ [completion.questId]
  let newScore := profile.socialScore + calculateSocialScoreIncrease s₁.activeQuests completion
  let profile' :=
    { profile with
      xp := newXp, level := newLevel, completedQuests := newCompleted,
      socialScore := newScore, lastActive := now }
  { s₁ with userProfiles := mapSet s₁.userProfiles completion.participantInboxId profile' }

/-- The `questCompleted` listener wired in `setupQuestMasterListeners`:
push the completion onto `questHistory`, delete the quest from
`activeQuests`, and only then call `updateUserProfile`. -/
def handleQuestCompleted (s : State) (completion : QuestCompletion) (now : Nat) : State :=
  let s₁ :=
    { s with
      questHistory := s.questHistory ++ [completion],
      activeQuests := mapDelete s.activeQuests completion.questId }
  updateUserProfile s₁ completion now

/-- The ids collected by the first pass of `cleanupExpiredQuests`: quests
of the map whose `expiresAt` is strictly before `now`. -/
def expiredIdsOf (m : List (String × Quest)) (now : Nat) : List String :=
  (m.filter (fun e => decide (e.2.expiresAt < now))).map Prod.fst

/-- `QuestOrchestrator.cleanupExpiredQuests`: the first pass marks every
quest with `expiresAt < now` (strict comparison in the source) as
`expired` and collects its id; the second pass deletes the collected ids
and emits `questExpired` for each.  The returned list is the sequence of
emitted ids. -/
def cleanupExpiredQuests (s : State) (now : Nat) : State × List String :=
  let expiredIds := expiredIdsOf s.activeQuests now
  let marked := s.activeQuests.map
    (fun e => if e.2.expiresAt < now then (e.1, { e.2 with status := QuestStatus.expired }) else e)
  let remaining := marked.filter (fun e => decide (e.1 ∉ expiredIds))
  ({ s with activeQuests := remaining }, expiredIds)

/-- Conversation analytics snapshot consumed by `shouldCreateQuest`
(the `criteria` object, after the `|| 0` defaults). -/
structure Analytics where
  messagesSinceLastQuest : Nat
  activeUsers : Nat
  engagementLevel : ℚ
  timeSinceLastQuest : Nat
deriving DecidableEq, Repr

/-- The `hasActiveQuest` check of `shouldCreateQuest`: some quest of the
conversation has status `active`. -/
def hasActiveQuestFor (quests : List (String × Quest)) (conversationId : String) : Bool :=
  quests.any (fun e => decide (e.2.conversationId = conversationId) &&
                       decide (e.2.status = QuestStatus.active))

/-- `QuestOrchestrator.shouldCreateQuest` (first class definition in the
file): `false` when the conversation already has an active quest, else the
conjunction of the four creation criteria (≥ 10 messages, ≥ 2 active
users, engagement > 0.5, ≥ 30 minutes = 1 800 000 ms since last quest). -/
def shouldCreateQuest (quests : List (String × Quest)) (conversationId : String)
    (analytics : Analytics) : Bool :=
  if hasActiveQuestFor quests conversationId then false
  else
    decide (10 ≤ analytics.messagesSinceLastQuest) &&
    decide (2 ≤ analytics.activeUsers) &&
    decide (mkRat 1 2 < analytics.engagementLevel) &&
    decide (30 * 60 * 1000 ≤ analytics.timeSinceLastQuest)

end QuestOrchestrator

/-- Combined system state: the orchestrator plus the (single, in this
model) quest master it delegates to.  `getQuestMasterForQuest` always
finds a master because the five personalities jointly cover all five quest
types. -/
structure SystemState where
  qm : QuestMaster.State
  orch : QuestOrchestrator.State
deriving DecidableEq, Repr

namespace QuestOrchestrator

/-- `QuestOrchestrator.completeQuest`: `QuestNotFound` when the id is
absent from the orchestrator's map, `NotAParticipant` when the user never
joined; otherwise — with no status check — delegate to
`QuestMaster.completeQuest`, whose `questCompleted` event runs the
synchronous listener `handleQuestCompleted`, then re-find the completion
in `questHistory`. -/
def completeQuest (sys : SystemState) (questId userInboxId : String) (now : Nat) :
    Except QuestError (SystemState × QuestCompletion) :=
  match mapGet sys.orch.activeQuests questId with
  | none => .error .QuestNotFound
  | some quest =>
    if userInboxId ∉ quest.participants then .error .NotAParticipant
    else
      match QuestMaster.completeQuest sys.qm questId userInboxId now with
      | .error e => .error e
      | .ok (qm', completion) =>
        let orch' := handleQuestCompleted sys.orch completion now
        match orch'.questHistory.find?
            (fun c => decide (c.questId = questId) &&
                      decide (c.participantInboxId = userInboxId)) with
        | none => .error .CompletionNotRecorded
        | some c => .ok ({ qm := qm', orch := orch' }, c)

end QuestOrchestrator

/-! ## MiniAppLauncher (second class definition in the file) -/

namespace MiniAppLauncher

/-- The `MiniAppConfig` satellite record (string/config payload fields that
no operation branches on are omitted). -/
structure MiniAppConfig where
  questId : String
  conversationId : String
  launchedAt : Nat
  status : QuestStatus
  participants : List String
deriving DecidableEq, Repr

/-- Mutable state of the `MiniAppLauncher`: its `activeMiniApps` map. -/
structure State where
  activeMiniApps : List (String × MiniAppConfig)
deriving DecidableEq, Repr

/-- `MiniAppLauncher.addParticipant`: `false` when the mini app is missing
or not `active`; otherwise push the participant only when not already
present, and return `true` either way. -/
def addParticipant (s : State) (questId participantInboxId : String) : State × Bool :=
  match mapGet s.activeMiniApps questId with
  | none => (s, false)
  | some miniApp =>
    if miniApp.status ≠ QuestStatus.active then (s, false)
    else if participantInboxId ∈ miniApp.participants then (s, true)
    else
      let miniApp' := { miniApp with participants := miniApp.participants ++ [participantInboxId] }
      ({ activeMiniApps := mapSet s.activeMiniApps questId miniApp' }, true)

/-- `MiniAppLauncher.removeParticipant`: `false` when the mini app is
missing (no error is thrown) or the participant is absent; otherwise
splice the participant out at its first index (`List.erase`) and return
`true`.  The quest status is never consulted, and the orchestrator's own
participant list is not touched. -/
def removeParticipant (s : State) (questId participantInboxId : String) : State × Bool :=
  match mapGet s.activeMiniApps questId with
  | none => (s, false)
  | some miniApp =>
    if participantInboxId ∈ miniApp.participants then
      let miniApp' := { miniApp with participants := miniApp.participants.erase participantInboxId }
      ({ activeMiniApps := mapSet s.activeMiniApps questId miniApp' }, true)
    else (s, false)

end MiniAppLauncher

/-! ## Claim-support definitions: join sequences and concrete states -/

namespace QuestOrchestrator

/-- One join request applied to the state; a request that errors leaves
the state unchanged. -/
def joinStep (s : State) (req : String × String) : State :=
  match joinQuest s req.1 req.2 with
  | .ok r => r.1
  | .error _ => s

/-- A sequence of join requests applied left to right. -/
def joinRun (s : State) (reqs : List (String × String)) : State :=
  reqs.foldl joinStep s

/-- The capacity invariant of the registry: every quest's participant list
is within its `participantLimits.max`. -/
def questsWithinCapacity (s : State) : Prop :=
  ∀ e ∈ s.activeQuests, e.2.participants.length ≤ e.2.participantLimits.max

end QuestOrchestrator

/-- Concrete quest for the C1 witness: capacity 2, empty participants. -/
def c1Quest : Quest :=
  { id := "q1", type := QuestType.social_challenge, difficulty := Difficulty.medium,
    duration := 30, participantLimits := ⟨1, 2⟩, rewards := ⟨100, none⟩,
    conversationId := "c1", createdAt := 0, expiresAt := 1800000,
    status := QuestStatus.active, participants := [] }

/-- Concrete registry state for the C1 witness. -/
def c1State : QuestOrchestrator.State := ⟨[("q1", c1Quest)], [], []⟩

/-- Concrete quest for C2: active, one participant, 100 XP reward. -/
def c2Quest : Quest :=
  { id := "q2", type := QuestType.knowledge_quest, difficulty := Difficulty.easy,
    duration := 30, participantLimits := ⟨1, 5⟩, rewards := ⟨100, some 10⟩,
    conversationId := "c2", createdAt := 0, expiresAt := 1800000,
    status := QuestStatus.active, participants := ["alice"] }

/-- C2 initial quest-master state: the quest is registered, no profiles. -/
def c2State0 : QuestMaster.State := ⟨[("q2", c2Quest)], []⟩

/-- C2 state after the first completion: the quest stays in the map with
status `completed`; alice holds 100 xp at level 2. -/
def c2State1 : QuestMaster.State :=
  ⟨[("q2", { c2Quest with status := QuestStatus.completed })],
   [("alice", { inboxId := "alice", level := 2, xp := 100, preferences := [],
                completedQuests := ["q2"], socialScore := 0, lastActive := 5 })]⟩

/-- C2 state after the second completion of the same, already-completed
quest: the rewards were applied again (xp 200, level 3, duplicate history
entry). -/
def c2State2 : QuestMaster.State :=
  ⟨[("q2", { c2Quest with status := QuestStatus.completed })],
   [("alice", { inboxId := "alice", level := 3, xp := 200, preferences := [],
                completedQuests := ["q2", "q2"], socialScore := 0, lastActive := 6 })]⟩

/-- Empty combined system state, for the C2 witness. -/
def sysEmpty : SystemState := ⟨⟨[], []⟩, ⟨[], [], []⟩⟩

/-- Concrete quest for the C3 witness: capacity 2, empty participants. -/
def c3Quest : Quest :=
  { id := "q3", type := QuestType.creative_contest, difficulty := Difficulty.medium,
    duration := 30, participantLimits := ⟨1, 2⟩, rewards := ⟨100, none⟩,
    conversationId := "c3", createdAt := 0, expiresAt := 1800000,
    status := QuestStatus.active, participants := [] }

/-- Concrete registry state for the C3 witness. -/
def c3State : QuestOrchestrator.State := ⟨[("q3", c3Quest)], [], []⟩

/-- C3 state after alice's first (successful) join. -/
def c3StateJoined : QuestOrchestrator.State :=
  ⟨[("q3", { c3Quest with participants := ["alice"] })], [], []⟩

/-- Concrete quest for C4: active, expiring exactly at time 1000. -/
def c4Quest : Quest :=
  { id := "q4", type := QuestType.social_challenge, difficulty := Difficulty.medium,
    duration := 30, participantLimits := ⟨1, 5⟩, rewards := ⟨100, none⟩,
    conversationId := "c4", createdAt := 0, expiresAt := 1000,
    status := QuestStatus.active, participants := [] }

/-- Concrete registry state for C4. -/
def c4State : QuestOrchestrator.State := ⟨[("q4", c4Quest)], [], []⟩

/-- Concrete malformed proposal for C5: capacity bounds `min = 2, max = 0`,
so `max < min` and `max < 1`. -/
def c5Proposal : QuestMaster.Proposal :=
  { type := none, difficulty := none, duration := none,
    participantLimits := some ⟨2, 0⟩, rewards := none }

/-- Result of creating a quest from the malformed C5 proposal. -/
def c5Result : QuestMaster.State × Quest :=
  QuestMaster.analyzeAndCreateQuest ⟨[], []⟩ c5Proposal QuestType.knowledge_quest 3 "c5" "q5" 0

/-- Concrete quest for the C6 witness: 150 XP reward (scenario C of the
spec: a fresh user completing it ends with xp 150, level 2). -/
def c6Quest : Quest :=
  { id := "q6", type := QuestType.creative_contest, difficulty := Difficulty.medium,
    duration := 30, participantLimits := ⟨1, 5⟩, rewards := ⟨150, none⟩,
    conversationId := "c6", createdAt := 0, expiresAt := 1800000,
    status := QuestStatus.active, participants := ["alice"] }

/-- C6 initial quest-master state. -/
def c6State : QuestMaster.State := ⟨[("q6", c6Quest)], []⟩

/-- C6 quest-master state after alice completes the 150-XP quest. -/
def c6After : QuestMaster.State :=
  ⟨[("q6", { c6Quest with status := QuestStatus.completed })],
   [("alice", { inboxId := "alice", level := 2, xp := 150, preferences := [],
                completedQuests := ["q6"], socialScore := 0, lastActive := 7 })]⟩

/-- The completion record emitted for the C6 witness. -/
def c6Completion : QuestCompletion := ⟨"q6", "alice", 7, ⟨150, none⟩, 2⟩

/-- Concrete quest for C7: type `community_building` (+10), difficulty
`expert` (+15), so the spec's increase is 5 + 10 + 15 = 30. -/
def c7Quest : Quest :=
  { id := "q7", type := QuestType.community_building, difficulty := Difficulty.expert,
    duration := 30, participantLimits := ⟨1, 5⟩, rewards := ⟨100, none⟩,
    conversationId := "c7", createdAt := 0, expiresAt := 1800000,
    status := QuestStatus.active, participants := ["alice"] }

/-- Concrete orchestrator state for C7: the quest is still registered when
the completion event arrives. -/
def c7State : QuestOrchestrator.State := ⟨[("q7", c7Quest)], [], []⟩

/-- The completion record the listener receives for C7. -/
def c7Completion : QuestCompletion := ⟨"q7", "alice", 5, ⟨100, none⟩, 2⟩

/-- Concrete quest for C9: capacity 2, already full with userA and userB. -/
def c9Quest : Quest :=
  { id := "q9", type := QuestType.social_challenge, difficulty := Difficulty.medium,
    duration := 30, participantLimits := ⟨1, 2⟩, rewards := ⟨100, none⟩,
    conversationId := "c9", createdAt := 0, expiresAt := 1800000,
    status := QuestStatus.active, participants := ["userA", "userB"] }

/-- Concrete orchestrator state for C9. -/
def c9Orch : QuestOrchestrator.State := ⟨[("q9", c9Quest)], [], []⟩

/-- Concrete mini-app mirror for C9, in sync with the quest. -/
def c9App : MiniAppLauncher.MiniAppConfig :=
  ⟨"q9", "c9", 0, QuestStatus.active, ["userA", "userB"]⟩

/-- Concrete launcher state for C9. -/
def c9Launcher : MiniAppLauncher.State := ⟨[("q9", c9App)]⟩

/-- C9 launcher state after userA leaves: only the mirror changed. -/
def c9LauncherAfter : MiniAppLauncher.State :=
  ⟨[("q9", { c9App with participants := ["userB"] })]⟩

/-- Concrete mini-app record for the C10 witness: active, one participant. -/
def c10App : MiniAppLauncher.MiniAppConfig :=
  ⟨"q10", "c10", 0, QuestStatus.active, ["alice"]⟩

/-- Concrete launcher state for the C10 witness. -/
def c10Launcher : MiniAppLauncher.State := ⟨[("q10", c10App)]⟩

/-! ## Map lemmas -/

theorem mapGet_mapSet_self {α : Type} (m : List (String × α)) (k : String) (v : α) :
    mapGet (mapSet m k v) k = some v := by
  induction m with
  | nil => simp [mapSet, mapGet]
  | cons e rest ih =>
    by_cases h : e.1 = k
    · simp [mapSet, mapGet, h]
    · simp [mapSet, mapGet, h, ih]

theorem mem_mapSet {α : Type} {m : List (String × α)} {k : String} {v : α} {e : String × α}
    (h : e ∈ mapSet m k v) : e = (k, v) ∨ e ∈ m := by
  induction m with
  | nil => simpa [mapSet] using h
  | cons e₀ rest ih =>
    by_cases hk : e₀.1 = k
    · simp [mapSet, hk] at h
      rcases h with h | h
      · exact Or.inl h
      · exact Or.inr (List.mem_cons_of_mem _ h)
    · simp [mapSet, hk] at h
      rcases h with h | h
      · exact Or.inr (by simp [h])
      · rcases ih h with h' | h'
        · exact Or.inl h'
        · exact Or.inr (List.mem_cons_of_mem _ h')

theorem mapGet_mem {α : Type} {m : List (String × α)} {k : String} {v : α}
    (h : mapGet m k = some v) : (k, v) ∈ m := by
  induction m with
  | nil => simp [mapGet] at h
  | cons e rest ih =>
    by_cases hk : e.1 = k
    · simp [mapGet, hk] at h
      subst h
      subst hk
      exact List.mem_cons_self _ _
    · simp [mapGet, hk] at h
      exact List.mem_cons_of_mem _ (ih h)

theorem mapGet_eq_none_iff {α : Type} {m : List (String × α)} {k : String} :
    mapGet m k = none ↔ ∀ e ∈ m, e.1 ≠ k := by
  induction m with
  | nil => simp [mapGet]
  | cons e rest ih =>
    by_cases hk : e.1 = k
    · simp [mapGet, hk]
    · simp [mapGet, hk, ih]

/-! ## Helper lemmas about the operations -/

namespace QuestOrchestrator

theorem joinQuest_ok_capacity {s : State} {qid uid : String} {r : State × Bool}
    (hok : joinQuest s qid uid = Except.ok r)
    (h : questsWithinCapacity s) : questsWithinCapacity r.1 := by
  unfold joinQuest at hok
  split at hok
  · simp at hok
  next quest hget =>
    split at hok
    · simp at hok
    next hst =>
      split at hok
      · simp at hok
        obtain ⟨rfl, -⟩ := hok
        exact h
      next hmem =>
        split at hok
        · simp at hok
        next hfull =>
          simp at hok
          obtain ⟨rfl, -⟩ := hok
          intro e he
          rcases mem_mapSet he with rfl | he'
          · simp
            omega
          · exact h e he'

theorem joinStep_capacity (s : State) (req : String × String)
    (h : questsWithinCapacity s) : questsWithinCapacity (joinStep s req) := by
  unfold joinStep
  split
  next r hq => exact joinQuest_ok_capacity hq h
  next => exact h

theorem mem_expiredIdsOf {m : List (String × Quest)} {now : Nat} {k : String} :
    k ∈ expiredIdsOf m now ↔ ∃ q, (k, q) ∈ m ∧ q.expiresAt < now := by
  simp only [expiredIdsOf, List.mem_map, List.mem_filter, decide_eq_true_iff]
  constructor
  · rintro ⟨⟨k', q⟩, ⟨hm, hlt⟩, rfl⟩
    exact ⟨q, hm, hlt⟩
  · rintro ⟨q, hm, hlt⟩
    exact ⟨(k, q), ⟨hm, hlt⟩, rfl⟩

theorem cleanup_snd (s : State) (now : Nat) :
    (cleanupExpiredQuests s now).2 = expiredIdsOf s.activeQuests now := rfl

theorem mem_cleanup_remaining {s : State} {now : Nat} {e : String × Quest}
    (he : e ∈ (cleanupExpiredQuests s now).1.activeQuests) :
    e.1 ∉ expiredIdsOf s.activeQuests now ∧ ¬ e.2.expiresAt < now := by
  simp only [cleanupExpiredQuests, List.mem_filter, List.mem_map, decide_eq_true_iff] at he
  obtain ⟨⟨e₀, he₀, heq⟩, hnotin⟩ := he
  refine ⟨hnotin, ?_⟩
  by_cases hlt : e₀.2.expiresAt < now
  · exfalso
    apply hnotin
    rw [← heq]
    simp only [if_pos hlt]
    exact mem_expiredIdsOf.mpr ⟨e₀.2, by simpa using he₀, hlt⟩
  · rw [← heq]
    simp only [if_neg hlt]
    exact hlt

end QuestOrchestrator

/-! ## Claim theorems -/

/-- C1: for every registry state whose quests all satisfy
`participants.length ≤ participantLimits.max`, every sequence of join
operations — over any quest ids and any users — preserves that bound on
every quest; in particular a quest created with empty participants never
exceeds its capacity under joins. -/
theorem join_capacity_invariant (s : QuestOrchestrator.State)
    (reqs : List (String × String))
    (h : QuestOrchestrator.questsWithinCapacity s) :
    QuestOrchestrator.questsWithinCapacity (QuestOrchestrator.joinRun s reqs) := by
  induction reqs generalizing s with
  | nil => exact h
  | cons r rest ih =>
    exact ih (QuestOrchestrator.joinStep s r) (QuestOrchestrator.joinStep_capacity s r h)

/-- C1 witness: three join requests against a freshly created quest of
capacity 2 leave every quest within capacity. -/
theorem join_capacity_invariant_witness :
    QuestOrchestrator.questsWithinCapacity
      (QuestOrchestrator.joinRun c1State [("q1", "alice"), ("q1", "bob"), ("q1", "carol")]) :=
  join_capacity_invariant c1State [("q1", "alice"), ("q1", "bob"), ("q1", "carol")]
    (by unfold QuestOrchestrator.questsWithinCapacity; decide)

/-- C2 counterexample: completing the quest once leaves it in the quest
master's map with status `completed` (not `active`); a second `complete`
by the same participant then does not fail with `QuestNotActive` — it
succeeds and applies the rewards again, moving alice's xp from 100 to 200. -/
theorem complete_no_status_check :
    QuestMaster.completeQuest c2State0 "q2" "alice" 5 =
      Except.ok (c2State1, ⟨"q2", "alice", 5, ⟨100, some 10⟩, 2⟩) ∧
    (mapGet c2State1.activeQuests "q2").map Quest.status = some QuestStatus.completed ∧
    "alice" ∈ c2Quest.participants ∧
    QuestMaster.completeQuest c2State1 "q2" "alice" 6 =
      Except.ok (c2State2, ⟨"q2", "alice", 6, ⟨100, some 10⟩, 3⟩) ∧
    (mapGet c2State1.userProfiles "alice").map UserProfile.xp = some 100 ∧
    (mapGet c2State2.userProfiles "alice").map UserProfile.xp = some 200 := by
  refine ⟨rfl, rfl, ?_, rfl, rfl, rfl⟩
  simp [c2Quest]

/-- C2 as amended: `complete` on a quest absent from the orchestrator's
map (the normal fate of completed or expired quests, which are deleted
from it) fails with `QuestNotFound` — not `QuestNotActive` — and touches
no profile; and there is no status check at all: a quest still present in
the quest master's map is completed regardless of its status. -/
theorem complete_missing_fails :
    (∀ (sys : SystemState) (qid uid : String) (now : Nat),
        mapGet sys.orch.activeQuests qid = none →
        QuestOrchestrator.completeQuest sys qid uid now = Except.error QuestError.QuestNotFound) ∧
    (∀ (s : QuestMaster.State) (qid uid : String) (now : Nat) (q : Quest),
        mapGet s.activeQuests qid = some q →
        (QuestMaster.completeQuest s qid uid now).isOk = true) := by
  constructor
  · intro sys qid uid now h
    unfold QuestOrchestrator.completeQuest
    rw [h]
  · intro s qid uid now q h
    unfold QuestMaster.completeQuest
    rw [h]
    rfl

/-- C2 witness: the amended statement instantiated on an empty system and
on the registered C2 quest. -/
theorem complete_missing_fails_witness :
    QuestOrchestrator.completeQuest sysEmpty "q1" "alice" 0 =
      Except.error QuestError.QuestNotFound ∧
    (QuestMaster.completeQuest c2State0 "q2" "bob" 5).isOk = true :=
  ⟨complete_missing_fails.1 sysEmpty "q1" "alice" 0 (by rfl),
   complete_missing_fails.2 c2State0 "q2" "bob" 5 c2Quest (by rfl)⟩

/-- C3: a join that succeeded (returned `true`) followed by a second join
with the same quest id and user returns `false` — not an error — and
leaves the state, hence the participant count, unchanged. -/
theorem join_idempotent (s s' : QuestOrchestrator.State) (qid uid : String)
    (h : QuestOrchestrator.joinQuest s qid uid = Except.ok (s', true)) :
    QuestOrchestrator.joinQuest s' qid uid = Except.ok (s', false) := by
  unfold QuestOrchestrator.joinQuest at h ⊢
  split at h
  · simp at h
  next quest hget =>
    split at h
    · simp at h
    next hst =>
      split at h
      · simp at h
      next hmem =>
        split at h
        · simp at h
        next hfull =>
          simp at h
          obtain ⟨rfl, -⟩ := h
          rw [mapGet_mapSet_self]
          simp at hst
          simp [hst]

/-- C3 witness: alice joins the fresh C3 quest (succeeding), and the
second join returns `false` with the state unchanged. -/
theorem join_idempotent_witness :
    QuestOrchestrator.joinQuest c3StateJoined "q3" "alice" =
      Except.ok (c3StateJoined, false) :=
  join_idempotent c3State c3StateJoined "q3" "alice" (by rfl)

/-- C4 counterexample: a quest whose `expiresAt` equals `now` satisfies
`expiresAt ≤ now`, yet the sweep transitions nothing — the source compares
with strict `<`, so the sweep returns the empty list and the state is
unchanged. -/
theorem cleanup_boundary_counterexample :
    c4Quest.expiresAt ≤ 1000 ∧ c4Quest.status = QuestStatus.active ∧
    QuestOrchestrator.cleanupExpiredQuests c4State 1000 = (c4State, []) := by
  refine ⟨by decide, rfl, rfl⟩

/-- C4 as amended: on a registry whose quests are all `active`, the sweep
reports exactly the quests with `expiresAt < now` (strict), removes each
of them from the map, and is single-fire: a second sweep with the same
`now` reports nothing. -/
theorem cleanup_strict_single_fire (s : QuestOrchestrator.State) (now : Nat)
    (hact : ∀ e ∈ s.activeQuests, e.2.status = QuestStatus.active) :
    (∀ k, k ∈ (QuestOrchestrator.cleanupExpiredQuests s now).2 ↔
        ∃ q, (k, q) ∈ s.activeQuests ∧ q.status = QuestStatus.active ∧ q.expiresAt < now) ∧
    (∀ k ∈ (QuestOrchestrator.cleanupExpiredQuests s now).2,
        mapGet (QuestOrchestrator.cleanupExpiredQuests s now).1.activeQuests k = none) ∧
    (QuestOrchestrator.cleanupExpiredQuests
        (QuestOrchestrator.cleanupExpiredQuests s now).1 now).2 = [] := by
  refine ⟨?_, ?_, ?_⟩
  · intro k
    rw [QuestOrchestrator.cleanup_snd, QuestOrchestrator.mem_expiredIdsOf]
    constructor
    · rintro ⟨q, hm, hlt⟩
      exact ⟨q, hm, hact (k, q) hm, hlt⟩
    · rintro ⟨q, hm, -, hlt⟩
      exact ⟨q, hm, hlt⟩
  · intro k hk
    rw [QuestOrchestrator.cleanup_snd] at hk
    rw [mapGet_eq_none_iff]
    intro e he hke
    exact (QuestOrchestrator.mem_cleanup_remaining he).1 (hke ▸ hk)
  · rw [QuestOrchestrator.cleanup_snd]
    rw [List.eq_nil_iff_forall_not_mem]
    intro k hk
    obtain ⟨q, hm, hlt⟩ := QuestOrchestrator.mem_expiredIdsOf.mp hk
    exact (QuestOrchestrator.mem_cleanup_remaining hm).2 hlt

/-- C4 witness: sweeping the C4 registry at time 2000 (past the expiry)
and sweeping again reports nothing the second time. -/
theorem cleanup_strict_single_fire_witness :
    (QuestOrchestrator.cleanupExpiredQuests
        (QuestOrchestrator.cleanupExpiredQuests c4State 2000).1 2000).2 = [] :=
  (cleanup_strict_single_fire c4State 2000 (by decide)).2.2

/-- C5 counterexample: a proposal with capacity bounds `min = 2, max = 0`
(`max < min` and `max < 1`) does not fail with `InvalidQuestDefinition` —
quest creation performs no validation, so the malformed quest is built
with status `active` and registered in the quest master's map. -/
theorem create_unvalidated_counterexample :
    c5Result.2.participantLimits.max < c5Result.2.participantLimits.min ∧
    c5Result.2.participantLimits.max < 1 ∧
    c5Result.2.status = QuestStatus.active ∧
    mapGet c5Result.1.activeQuests "q5" = some c5Result.2 := by
  refine ⟨by decide, by decide, rfl, rfl⟩

/-- C5 as amended: quest creation never rejects a proposal — for every
proposal, including ones with `max < min` or `max < 1`, the constructed
quest is registered with status `active` and carries the proposal's
capacity bounds verbatim (or the default when absent). -/
theorem create_registers_unconditionally (s : QuestMaster.State) (p : QuestMaster.Proposal)
    (t : QuestType) (n : Nat) (cid nid : String) (now : Nat) :
    mapGet (QuestMaster.analyzeAndCreateQuest s p t n cid nid now).1.activeQuests nid
      = some (QuestMaster.analyzeAndCreateQuest s p t n cid nid now).2 ∧
    (QuestMaster.analyzeAndCreateQuest s p t n cid nid now).2.status = QuestStatus.active ∧
    (QuestMaster.analyzeAndCreateQuest s p t n cid nid now).2.participantLimits
      = p.participantLimits.getD ⟨2, Nat.max 2 n⟩ := by
  refine ⟨?_, rfl, rfl⟩
  unfold QuestMaster.analyzeAndCreateQuest
  exact mapGet_mapSet_self _ _ _

/-- C6: after every reward application the stored profile satisfies
`level = floor(xp / 100) + 1` with `xp` the profile's xp after adding the
quest's XP reward — both on the orchestrator's `updateUserProfile` path
(for every prior state, i.e. every xp history) and on the quest master's
`completeQuest` path. -/
theorem level_recomputed :
    (∀ (s : QuestOrchestrator.State) (c : QuestCompletion) (now : Nat),
      ∃ p, mapGet (QuestOrchestrator.updateUserProfile s c now).userProfiles
            c.participantInboxId = some p ∧
        p.xp = (QuestOrchestrator.getUserStats s c.participantInboxId now).2.xp + c.rewards.xp ∧
        p.level = p.xp / 100 + 1) ∧
    (∀ (s : QuestMaster.State) (qid uid : String) (now : Nat)
        (r : QuestMaster.State × QuestCompletion),
      QuestMaster.completeQuest s qid uid now = Except.ok r →
      ∃ p, mapGet r.1.userProfiles uid = some p ∧
        p.xp = (QuestMaster.getUserProfile s uid now).2.xp + r.2.rewards.xp ∧
        p.level = p.xp / 100 + 1) := by
  constructor
  · intro s c now
    exact ⟨_, mapGet_mapSet_self _ _ _, rfl, rfl⟩
  · intro s qid uid now r h
    unfold QuestMaster.completeQuest at h
    split at h
    · simp at h
    next quest hget =>
      simp only [Except.ok.injEq] at h
      subst h
      exact ⟨_, mapGet_mapSet_self _ _ _, rfl, rfl⟩

/-- C6 witness: a fresh user completing the 150-XP C6 quest ends with a
stored profile of xp 150 and level `150 / 100 + 1 = 2`. -/
theorem level_recomputed_witness :
    ∃ p, mapGet c6After.userProfiles "alice" = some p ∧
      p.xp = (QuestMaster.getUserProfile c6State "alice" 7).2.xp + c6Completion.rewards.xp ∧
      p.level = p.xp / 100 + 1 :=
  level_recomputed.2 c6State "q6" "alice" 7 (c6After, c6Completion) (by rfl)

/-- C7 (code bug): the bonus tables of `calculateSocialScoreIncrease` do
yield `5 + typeBonus + difficultyBonus` (= 30 for a community-building /
expert quest) when the quest is still registered — but the completion
listener deletes the quest from `activeQuests` before calling
`updateUserProfile`, so the lookup misses and the stored social score
increases by the default 5 only. -/
theorem social_score_bonus_dead :
    QuestOrchestrator.calculateSocialScoreIncrease c7State.activeQuests c7Completion =
      5 + QuestOrchestrator.typeBonus QuestType.community_building +
        QuestOrchestrator.difficultyBonus Difficulty.expert ∧
    QuestOrchestrator.calculateSocialScoreIncrease c7State.activeQuests c7Completion = 30 ∧
    (mapGet (QuestOrchestrator.handleQuestCompleted c7State c7Completion 5).userProfiles
        "alice").map UserProfile.socialScore = some 5 := by
  refine ⟨rfl, rfl, rfl⟩

/-- C8: `shouldCreateQuest` returns `true` exactly when the conversation
has no active quest and the snapshot meets all four thresholds
(messages ≥ 10, active users ≥ 2, engagement > 1/2, time ≥ 30 min);
on the spec's scenario-A snapshot (10 messages, 2 users, engagement 3/5,
31 min) it returns `true`, and with engagement 2/5 it returns `false`. -/
theorem shouldCreateQuest_gate :
    (∀ (quests : List (String × Quest)) (cid : String) (a : QuestOrchestrator.Analytics),
      QuestOrchestrator.shouldCreateQuest quests cid a = true ↔
        (QuestOrchestrator.hasActiveQuestFor quests cid = false ∧
         10 ≤ a.messagesSinceLastQuest ∧ 2 ≤ a.activeUsers ∧
         mkRat 1 2 < a.engagementLevel ∧ 30 * 60 * 1000 ≤ a.timeSinceLastQuest)) ∧
    QuestOrchestrator.shouldCreateQuest [] "c8" ⟨10, 2, mkRat 3 5, 1860000⟩ = true ∧
    QuestOrchestrator.shouldCreateQuest [] "c8" ⟨10, 2, mkRat 2 5, 1860000⟩ = false := by
  refine ⟨?_, by decide, by decide⟩
  intro quests cid a
  unfold QuestOrchestrator.shouldCreateQuest
  by_cases h : QuestOrchestrator.hasActiveQuestFor quests cid = true
  · simp [h]
  · simp [h, and_assoc]

/-- C9 counterexample: with the C9 quest full (capacity 2, userA and
userB joined), a join by userC fails with `QuestFull`; `leave`
(`removeParticipant`) of userA returns `true` but mutates only the
mini-app mirror — its type does not even reach the orchestrator's state —
so the repeated join by userC runs against the unchanged registry and
still fails with `QuestFull` instead of succeeding; and `leave` on an
unknown quest id returns `false` rather than failing with
`QuestNotFound`. -/
theorem leave_counterexample :
    QuestOrchestrator.joinQuest c9Orch "q9" "userC" = Except.error QuestError.QuestFull ∧
    MiniAppLauncher.removeParticipant c9Launcher "q9" "userA" = (c9LauncherAfter, true) ∧
    QuestOrchestrator.joinQuest c9Orch "q9" "userC" = Except.error QuestError.QuestFull ∧
    MiniAppLauncher.removeParticipant c9Launcher "missing" "userA" = (c9Launcher, false) := by
  refine ⟨rfl, rfl, rfl, rfl⟩

/-- C9 as amended: `removeParticipant` returns `false` (not a
`QuestNotFound` error) on an unknown quest id; when the mini app exists it
removes a present user from the mirror and returns `true`, returns
`false` for an absent user, and never consults the quest status; it does
not touch the orchestrator's participant list, so join capacity is
unaffected by a leave. -/
theorem removeParticipant_spec (s : MiniAppLauncher.State) (qid uid : String) :
    (mapGet s.activeMiniApps qid = none →
      MiniAppLauncher.removeParticipant s qid uid = (s, false)) ∧
    (∀ m, mapGet s.activeMiniApps qid = some m →
      (uid ∈ m.participants →
        MiniAppLauncher.removeParticipant s qid uid =
          (⟨mapSet s.activeMiniApps qid
              { m with participants := m.participants.erase uid }⟩, true)) ∧
      (uid ∉ m.participants → MiniAppLauncher.removeParticipant s qid uid = (s, false))) := by
  refine ⟨?_, ?_⟩
  · intro h
    unfold MiniAppLauncher.removeParticipant
    rw [h]
  · intro m h
    constructor
    · intro hm
      unfold MiniAppLauncher.removeParticipant
      rw [h]
      simp [hm]
    · intro hm
      unfold MiniAppLauncher.removeParticipant
      rw [h]
      simp [hm]

/-- C9 witness: the amended statement instantiated on the C9 launcher
(userA present; and an unknown quest id). -/
theorem removeParticipant_spec_witness :
    MiniAppLauncher.removeParticipant c9Launcher "q9" "userA" =
      (⟨mapSet c9Launcher.activeMiniApps "q9"
          { c9App with participants := c9App.participants.erase "userA" }⟩, true) ∧
    MiniAppLauncher.removeParticipant c9Launcher "missing" "userA" = (c9Launcher, false) :=
  ⟨((removeParticipant_spec c9Launcher "q9" "userA").2 c9App (by rfl)).1 (by decide),
   (removeParticipant_spec c9Launcher "missing" "userA").1 (by rfl)⟩

/-- C10: on an `active` mini-app record, `addParticipant` returns `true`
whether or not the user is already mirrored (a duplicate add reports
success, not `false`); and because it pushes only when the user is
absent, the mirror never acquires duplicate entries. -/
theorem addParticipant_duplicate_ok :
    (∀ (s : MiniAppLauncher.State) (qid uid : String) (m : MiniAppLauncher.MiniAppConfig),
      mapGet s.activeMiniApps qid = some m → m.status = QuestStatus.active →
      (MiniAppLauncher.addParticipant s qid uid).2 = true) ∧
    (∀ (s : MiniAppLauncher.State) (qid uid : String),
      (∀ e ∈ s.activeMiniApps, e.2.participants.Nodup) →
      ∀ e ∈ (MiniAppLauncher.addParticipant s qid uid).1.activeMiniApps,
        e.2.participants.Nodup) := by
  constructor
  · intro s qid uid m h hst
    unfold MiniAppLauncher.addParticipant
    rw [h]
    by_cases hm : uid ∈ m.participants <;> simp [hst, hm]
  · intro s qid uid hnd e he
    unfold MiniAppLauncher.addParticipant at he
    cases hq : mapGet s.activeMiniApps qid with
    | none =>
      rw [hq] at he
      exact hnd e he
    | some m =>
      rw [hq] at he
      by_cases hst : m.status ≠ QuestStatus.active
      · simp only [if_pos hst] at he
        exact hnd e he
      · by_cases hm : uid ∈ m.participants
        · simp only [if_neg hst, if_pos hm] at he
          exact hnd e he
        · simp only [if_neg hst, if_neg hm] at he
          rcases mem_mapSet he with rfl | he'
          · have hmnd : m.participants.Nodup := hnd (qid, m) (mapGet_mem hq)
            simp [List.nodup_append, hmnd, hm]
          · exact hnd e he'

/-- C10 witness: a duplicate add of alice to the active C10 record reports
`true`, and adding bob keeps every mirror duplicate-free. -/
theorem addParticipant_duplicate_ok_witness :
    (MiniAppLauncher.addParticipant c10Launcher "q10" "alice").2 = true ∧
    ∀ e ∈ (MiniAppLauncher.addParticipant c10Launcher "q10" "bob").1.activeMiniApps,
      e.2.participants.Nodup :=
  ⟨addParticipant_duplicate_ok.1 c10Launcher "q10" "alice" c10App (by rfl) (by rfl),
   addParticipant_duplicate_ok.2 c10Launcher "q10" "bob" (by decide)⟩

end QuestArena
